import Mathlib

/-!
Shallow embedding of the payment-callback state machine and
gateway-authentication protocol of the `kamol666/bot` repository.

The embedded code lives in:
* `src/modules/payment-providers/click/click.service.ts` (the "click"
  variant: `generateAuthHeader`, `handleMerchantTransactions`, `prepare`,
  `complete`);
* `src/modules/payment-providers/click-subs-api/click-subs-api.service.ts`
  (the "subs-api" variant, two textually identical copies of
  `createSignature`, `prepareTransaction`, `completeTransaction`,
  `getHeaders`, and the resilience layer `retryRequest` /
  `retryWithMultipleUrls`);
* `src/unnamed/part_003` (a second click-service variant whose `complete`
  re-throws activation errors);
* `src/unnamed/part_001` (the `ClickError` numeric taxonomy).

JavaScript numbers that are always integral in the embedded paths are
modelled as `Int`/`Nat`; strings are Lean `String`s hashed over their
UTF-8 bytes, matching Node's `crypto.createHash(..).update(string)`
default encoding.  Database reads (`findOne`) are first-match searches
over an explicit list of records, matching query-by-insertion-order
semantics; `create` appends; `findOneAndUpdate` replaces the first match.
Wall-clock reads (`Date.now()`, `new Date().toISOString()`) are passed in
as explicit parameters.
-/

namespace ClickBot

set_option maxRecDepth 100000

/-! ## 32-bit arithmetic over `Nat` -/

/-- `2^32`, the modulus of all 32-bit machine arithmetic in the hashes. -/
def M32 : Nat := 4294967296

/-- Addition modulo `2^32`. -/
def add32 (a b : Nat) : Nat := (a + b) % M32

/-- Left-rotation of a 32-bit word (argument assumed `< 2^32`). -/
def rotl32 (x n : Nat) : Nat := (x * 2 ^ (n % 32) + x / 2 ^ (32 - n % 32)) % M32

/-- Right-rotation of a 32-bit word. -/
def rotr32 (x n : Nat) : Nat := rotl32 x (32 - n % 32)

/-- Bitwise complement within 32 bits. -/
def not32 (x : Nat) : Nat := 4294967295 - x % M32

/-! ## Bytes, UTF-8 and lowercase hex -/

/-- UTF-8 encoding of a single character (standard 1–4 byte forms),
as a list of byte values. -/
def utf8Char (c : Char) : List Nat :=
  let n := c.toNat
  if n < 128 then [n]
  else if n < 2048 then [192 + n / 64, 128 + n % 64]
  else if n < 65536 then [224 + n / 4096, 128 + n / 64 % 64, 128 + n % 64]
  else [240 + n / 262144, 128 + n / 4096 % 64, 128 + n / 64 % 64, 128 + n % 64]

/-- UTF-8 encoding of a string, matching Node's default encoding for
`crypto.createHash(..).update(s)`. -/
def utf8Encode (s : String) : List Nat := s.data.flatMap utf8Char

/-- The sixteen lowercase hex digits. -/
def hexDigits : List Char := "0123456789abcdef".data

/-- One hex digit. -/
def hexChar (n : Nat) : Char := hexDigits.getD n '0'

/-- Two-digit lowercase hex rendering of a byte. -/
def byteToHex (b : Nat) : List Char := [hexChar (b / 16 % 16), hexChar (b % 16)]

/-- Lowercase hex string of a byte list, as produced by
`crypto...digest('hex')`. -/
def bytesToHex (bs : List Nat) : String := ⟨bs.flatMap byteToHex⟩

/-- Fuel-driven worker for `chunks64` (structural recursion so that proofs
can evaluate it); the fuel is the list length, which bounds the number of
64-byte blocks. -/
def chunks64Go : Nat → List Nat → List (List Nat)
  | 0, _ => []
  | _, [] => []
  | fuel + 1, l => l.take 64 :: chunks64Go fuel (l.drop 64)

/-- Split a byte list into 64-byte blocks. -/
def chunks64 (l : List Nat) : List (List Nat) := chunks64Go l.length l

/-- Little-endian 32-bit words from bytes (4 bytes per word). -/
def bytesToWordsLE : List Nat → List Nat
  | b0 :: b1 :: b2 :: b3 :: rest =>
      (b0 + b1 * 256 + b2 * 65536 + b3 * 16777216) :: bytesToWordsLE rest
  | _ => []

/-- Big-endian 32-bit words from bytes (4 bytes per word). -/
def bytesToWordsBE : List Nat → List Nat
  | b0 :: b1 :: b2 :: b3 :: rest =>
      (b0 * 16777216 + b1 * 65536 + b2 * 256 + b3) :: bytesToWordsBE rest
  | _ => []

/-- Little-endian byte serialization of a 32-bit word. -/
def wordToBytesLE (w : Nat) : List Nat :=
  [w % 256, w / 256 % 256, w / 65536 % 256, w / 16777216 % 256]

/-- Big-endian byte serialization of a 32-bit word. -/
def wordToBytesBE (w : Nat) : List Nat :=
  [w / 16777216 % 256, w / 65536 % 256, w / 256 % 256, w % 256]

/-- Big-endian 8-byte serialization of a 64-bit length value. -/
def len64BE (n : Nat) : List Nat :=
  [n / 2 ^ 56 % 256, n / 2 ^ 48 % 256, n / 2 ^ 40 % 256, n / 2 ^ 32 % 256,
   n / 16777216 % 256, n / 65536 % 256, n / 256 % 256, n % 256]

/-- Little-endian 8-byte serialization of a 64-bit length value. -/
def len64LE (n : Nat) : List Nat := (len64BE n).reverse

/-- Merkle–Damgård padding: append `128`, zero-pad to 56 mod 64, then the
bit length over 8 bytes (endianness chosen by the serializer). -/
def padMessage (msg : List Nat) (lenBytes : Nat → List Nat) : List Nat :=
  let padLen := (55 + 64 - msg.length % 64) % 64 + 1
  msg ++ (128 :: List.replicate (padLen - 1) 0) ++ lenBytes (msg.length * 8)

/-! ## MD5 (RFC 1321), used by the callback Signature Verifier -/

/-- The 64 MD5 sine-derived round constants. -/
def md5K : List Nat :=
  [3614090360, 3905402710, 606105819, 3250441966,
   4118548399, 1200080426, 2821735955, 4249261313,
   1770035416, 2336552879, 4294925233, 2304563134,
   1804603682, 4254626195, 2792965006, 1236535329,
   4129170786, 3225465664, 643717713, 3921069994,
   3593408605, 38016083, 3634488961, 3889429448,
   568446438, 3275163606, 4107603335, 1163531501,
   2850285829, 4243563512, 1735328473, 2368359562,
   4294588738, 2272392833, 1839030562, 4259657740,
   2763975236, 1272893353, 4139469664, 3200236656,
   681279174, 3936430074, 3572445317, 76029189,
   3654602809, 3873151461, 530742520, 3299628645,
   4096336452, 1126891415, 2878612391, 4237533241,
   1700485571, 2399980690, 4293915773, 2240044497,
   1873313359, 4264355552, 2734768916, 1309151649,
   4149444226, 3174756917, 718787259, 3951481745]

/-- The 64 MD5 per-round left-rotation amounts. -/
def md5S : List Nat :=
  [7, 12, 17, 22, 7, 12, 17, 22, 7, 12, 17, 22, 7, 12, 17, 22,
   5, 9, 14, 20, 5, 9, 14, 20, 5, 9, 14, 20, 5, 9, 14, 20,
   4, 11, 16, 23, 4, 11, 16, 23, 4, 11, 16, 23, 4, 11, 16, 23,
   6, 10, 15, 21, 6, 10, 15, 21, 6, 10, 15, 21, 6, 10, 15, 21]

/-- One MD5 round step on the register quadruple. -/
def md5Step (msg : List Nat) (r : Nat × Nat × Nat × Nat) (i : Nat) :
    Nat × Nat × Nat × Nat :=
  let (a, b, c, d) := r
  let fg : Nat × Nat :=
    if i < 16 then ((b &&& c) ||| (not32 b &&& d), i)
    else if i < 32 then ((d &&& b) ||| (not32 d &&& c), (5 * i + 1) % 16)
    else if i < 48 then (b ^^^ c ^^^ d, (3 * i + 5) % 16)
    else (c ^^^ (b ||| not32 d), 7 * i % 16)
  let f := add32 (add32 (add32 fg.1 a) (md5K.getD i 0)) (msg.getD fg.2 0)
  (d, add32 b (rotl32 f (md5S.getD i 0)), b, c)

/-- MD5 compression of one 64-byte block into the running registers. -/
def md5Block (r : Nat × Nat × Nat × Nat) (block : List Nat) :
    Nat × Nat × Nat × Nat :=
  let msg := bytesToWordsLE block
  let (a, b, c, d) := (List.range 64).foldl (md5Step msg) r
  (add32 r.1 a, add32 r.2.1 b, add32 r.2.2.1 c, add32 r.2.2.2 d)

/-- MD5 digest of a byte list, as 16 bytes. -/
def md5Bytes (msg : List Nat) : List Nat :=
  let padded := padMessage msg len64LE
  let (a, b, c, d) :=
    (chunks64 padded).foldl md5Block (1732584193, 4023233417, 2562383102, 271733878)
  wordToBytesLE a ++ wordToBytesLE b ++ wordToBytesLE c ++ wordToBytesLE d

/-- `crypto.createHash('md5').update(s).digest('hex')`. -/
def md5Hex (s : String) : String := bytesToHex (md5Bytes (utf8Encode s))

/-! ## SHA-1 (FIPS 180-4), used by `generateAuthHeader` -/

/-- Extend the 16 message words of a SHA-1 block to 80 schedule words. -/
def sha1Extend (ws : List Nat) : List Nat :=
  (List.range 64).foldl
    (fun acc _ =>
      let n := acc.length
      acc ++ [rotl32 (acc.getD (n - 3) 0 ^^^ acc.getD (n - 8) 0 ^^^
                      acc.getD (n - 14) 0 ^^^ acc.getD (n - 16) 0) 1])
    ws

/-- One SHA-1 round step on the register quintuple. -/
def sha1Step (w : List Nat) (r : Nat × Nat × Nat × Nat × Nat) (i : Nat) :
    Nat × Nat × Nat × Nat × Nat :=
  let (a, b, c, d, e) := r
  let fk : Nat × Nat :=
    if i < 20 then ((b &&& c) ||| (not32 b &&& d), 1518500249)
    else if i < 40 then (b ^^^ c ^^^ d, 1859775393)
    else if i < 60 then ((b &&& c) ||| (b &&& d) ||| (c &&& d), 2400959708)
    else (b ^^^ c ^^^ d, 3395469782)
  let temp := add32 (add32 (add32 (add32 (rotl32 a 5) fk.1) e) fk.2) (w.getD i 0)
  (temp, a, rotl32 b 30, c, d)

/-- SHA-1 compression of one 64-byte block. -/
def sha1Block (r : Nat × Nat × Nat × Nat × Nat) (block : List Nat) :
    Nat × Nat × Nat × Nat × Nat :=
  let w := sha1Extend (bytesToWordsBE block)
  let (a, b, c, d, e) := (List.range 80).foldl (sha1Step w) r
  (add32 r.1 a, add32 r.2.1 b, add32 r.2.2.1 c, add32 r.2.2.2.1 d,
   add32 r.2.2.2.2 e)

/-- SHA-1 digest of a byte list, as 20 bytes. -/
def sha1Bytes (msg : List Nat) : List Nat :=
  let padded := padMessage msg len64BE
  let (a, b, c, d, e) :=
    (chunks64 padded).foldl sha1Block
      (1732584193, 4023233417, 2562383102, 271733878, 3285377520)
  wordToBytesBE a ++ wordToBytesBE b ++ wordToBytesBE c ++ wordToBytesBE d ++
    wordToBytesBE e

/-- `crypto.createHash('sha1').update(s).digest('hex')`. -/
def sha1Hex (s : String) : String := bytesToHex (sha1Bytes (utf8Encode s))

/-! ## SHA-256 (FIPS 180-4), used by the subs-api `getHeaders` -/

/-- The 64 SHA-256 round constants. -/
def sha256K : List Nat :=
  [1116352408, 1899447441, 3049323471, 3921009573,
   961987163, 1508970993, 2453635748, 2870763221,
   3624381080, 310598401, 607225278, 1426881987,
   1925078388, 2162078206, 2614888103, 3248222580,
   3835390401, 4022224774, 264347078, 604807628,
   770255983, 1249150122, 1555081692, 1996064986,
   2554220882, 2821834349, 2952996808, 3210313671,
   3336571891, 3584528711, 113926993, 338241895,
   666307205, 773529912, 1294757372, 1396182291,
   1695183700, 1986661051, 2177026350, 2456956037,
   2730485921, 2820302411, 3259730800, 3345764771,
   3516065817, 3600352804, 4094571909, 275423344,
   430227734, 506948616, 659060556, 883997877,
   958139571, 1322822218, 1537002063, 1747873779,
   1955562222, 2024104815, 2227730452, 2361852424,
   2428436474, 2756734187, 3204031479, 3329325298]

/-- Extend the 16 message words of a SHA-256 block to 64 schedule words. -/
def sha256Extend (ws : List Nat) : List Nat :=
  (List.range 48).foldl
    (fun acc _ =>
      let n := acc.length
      let w15 := acc.getD (n - 15) 0
      let w2 := acc.getD (n - 2) 0
      let s0 := rotr32 w15 7 ^^^ rotr32 w15 18 ^^^ w15 / 2 ^ 3
      let s1 := rotr32 w2 17 ^^^ rotr32 w2 19 ^^^ w2 / 2 ^ 10
      acc ++ [add32 (add32 (acc.getD (n - 16) 0) s0) (add32 (acc.getD (n - 7) 0) s1)])
    ws

/-- The SHA-256 register octuple. -/
structure Sha256Regs where
  a : Nat
  b : Nat
  c : Nat
  d : Nat
  e : Nat
  f : Nat
  g : Nat
  h : Nat

/-- One SHA-256 round step. -/
def sha256Step (w : List Nat) (r : Sha256Regs) (i : Nat) : Sha256Regs :=
  let s1 := rotr32 r.e 6 ^^^ rotr32 r.e 11 ^^^ rotr32 r.e 25
  let ch := (r.e &&& r.f) ^^^ (not32 r.e &&& r.g)
  let temp1 := add32 (add32 (add32 r.h s1) (add32 ch (sha256K.getD i 0))) (w.getD i 0)
  let s0 := rotr32 r.a 2 ^^^ rotr32 r.a 13 ^^^ rotr32 r.a 22
  let maj := (r.a &&& r.b) ^^^ (r.a &&& r.c) ^^^ (r.b &&& r.c)
  let temp2 := add32 s0 maj
  { a := add32 temp1 temp2, b := r.a, c := r.b, d := r.c,
    e := add32 r.d temp1, f := r.e, g := r.f, h := r.g }

/-- SHA-256 compression of one 64-byte block. -/
def sha256Block (r : Sha256Regs) (block : List Nat) : Sha256Regs :=
  let w := sha256Extend (bytesToWordsBE block)
  let x := (List.range 64).foldl (sha256Step w) r
  { a := add32 r.a x.a, b := add32 r.b x.b, c := add32 r.c x.c,
    d := add32 r.d x.d, e := add32 r.e x.e, f := add32 r.f x.f,
    g := add32 r.g x.g, h := add32 r.h x.h }

/-- SHA-256 digest of a byte list, as 32 bytes. -/
def sha256Bytes (msg : List Nat) : List Nat :=
  let padded := padMessage msg len64BE
  let x := (chunks64 padded).foldl sha256Block
    { a := 1779033703, b := 3144134277, c := 1013904242, d := 2773480762,
      e := 1359893119, f := 2600822924, g := 528734635, h := 1541459225 }
  wordToBytesBE x.a ++ wordToBytesBE x.b ++ wordToBytesBE x.c ++
    wordToBytesBE x.d ++ wordToBytesBE x.e ++ wordToBytesBE x.f ++
    wordToBytesBE x.g ++ wordToBytesBE x.h

/-- `crypto.createHash('sha256').update(s).digest('hex')`. -/
def sha256Hex (s : String) : String := bytesToHex (sha256Bytes (utf8Encode s))

/-! ## Data model

`TransactionStatus` and the `Transaction` fields are taken from their use
sites in the two service variants (the `transactions.model` file itself is
outside the snapshot): `PENDING`, `PROCESSING`, `COMPLETED`, `PAID`,
`FAILED`, `CANCELED` all appear in the embedded handlers. -/

inductive TransactionStatus where
  | PENDING
  | PROCESSING
  | COMPLETED
  | PAID
  | FAILED
  | CANCELED
deriving DecidableEq, Repr

/-- A persisted `Transaction` record.  `id` is the Mongo `_id` (the
subs-api variant keys on it); `transId` is the gateway id as a string;
`prepareId` is the timestamp-derived local prepare id. -/
structure Txn where
  id : String
  transId : String
  prepareId : Nat
  userId : String
  planId : String
  amount : Int
  status : TransactionStatus
deriving DecidableEq, Repr

/-- The slice of a `User` record the embedded handlers read. -/
structure User where
  id : String
  telegramId : Int
deriving DecidableEq, Repr

/-- The slice of a `Plan` record the embedded handlers read. -/
structure Plan where
  id : String
  price : Int
  name : String
deriving DecidableEq, Repr

/-- The database visible to the handlers.  Only `txns` is mutated by the
embedded code paths; users and plans are read-only collaborators. -/
structure Db where
  txns : List Txn
  users : List User
  plans : List Plan
deriving DecidableEq, Repr

/-- `Model.findOne(query)`: first record satisfying the query, in
insertion order. -/
def findOne {α : Type} (p : α → Prop) [DecidablePred p] (l : List α) : Option α :=
  l.find? fun x => decide (p x)

/-- `Model.findOneAndUpdate(query, update)`: rewrite the first record
satisfying the query, leaving the rest untouched. -/
def updateFirst {α : Type} (p : α → Prop) [DecidablePred p] (f : α → α) :
    List α → List α
  | [] => []
  | x :: xs => if p x then f x :: xs else x :: updateFirst p f xs

/-- Observable side effects emitted by the complete handlers. -/
inductive Event where
  | paymentSuccessNotified (userId : String)
  | subscriptionActivated (userId planId : String)
deriving DecidableEq, Repr

/-- Result of a callback handler: the JSON response body, the transaction
store after the call, and the activation side effects that ran. -/
structure HandlerResult (R : Type) where
  resp : R
  txns : List Txn
  events : List Event
deriving DecidableEq, Repr

/-! Numeric error taxonomy returned to the gateway
(src/unnamed/part_001; the click-variant `./enums` file carries the same
values per the spec's §4.2 taxonomy). -/

namespace ClickError

def Success : Int := 0

def SignFailed : Int := -1

def InvalidAmount : Int := -2

def ActionNotFound : Int := -3

def AlreadyPaid : Int := -4

def UserNotFound : Int := -5

def TransactionNotFound : Int := -6

def UpdateFailed : Int := -7

def TransactionCanceled : Int := -9

end ClickError

/-! ## The click variant (`click/click.service.ts`) -/

/-- A JavaScript numeric coercion result: `+x` yields either a number
(modelled integral) or `NaN` (any non-numeric value). -/
inductive JsNum where
  | int (n : Int)
  | nan
deriving DecidableEq, Repr

/-- The number `+x` evaluates to, `none` for `NaN`. -/
def JsNum.toNumber : JsNum → Option Int
  | .int n => some n
  | .nan => none

/-- String interpolation of the raw action value (integral case). -/
def JsNum.render : JsNum → String
  | .int n => toString n
  | .nan => "NaN"

/-- The inbound callback body (`ClickRequest` type): §6 wire fields plus
the `param1`/`param2` extra parameters the variants read.  `action` is
kept as the already-coerced `+action` value. -/
structure ClickRequest where
  click_trans_id : Int
  service_id : Int
  merchant_trans_id : String
  param1 : String
  param2 : String
  amount : Int
  action : JsNum
  error : Int
  sign_time : String
  sign_string : String
  merchant_prepare_id : Nat
deriving DecidableEq, Repr

/-- The click-variant response body.  JSON keys absent from a given
return object are `none`. -/
structure ClickResp where
  click_trans_id : Option Int := none
  merchant_trans_id : Option String := none
  merchant_prepare_id : Option Nat := none
  error : Int
  error_note : String
deriving DecidableEq, Repr

/-- Configuration read from the environment at startup. -/
structure ClickCfg where
  secretKey : String
  merchantUserId : String
deriving DecidableEq, Repr

/-- Modelled from the spec: `generateMD5` lives in
`src/shared/database/hashing/hasher.helper`, which is not in the snapshot.
Per spec §4.1 it concatenates, in the fixed documented order, transaction
id, service id, shared secret, merchant-facing transaction id, then — for
the complete action only — the prepare id, then amount, action code and
sign timestamp, and hashes the concatenation with MD5 to a lowercase hex
string.  The field order follows the `Md5HashParams` type
(src/unnamed/part_005) and the call sites in `click.service.ts`. -/
structure Md5HashParams where
  clickTransId : String
  serviceId : Int
  secretKey : String
  merchantTransId : String
  merchantPrepareId : Option Nat := none
  amount : Int
  action : JsNum
  signTime : String
deriving DecidableEq, Repr

/-- Modelled from the spec: the keyed MD5 signature over the ordered
field concatenation (see `Md5HashParams`). -/
def generateMD5 (p : Md5HashParams) : String :=
  md5Hex (p.clickTransId ++ toString p.serviceId ++ p.secretKey ++
    p.merchantTransId ++
    (match p.merchantPrepareId with | some n => toString n | none => "") ++
    toString p.amount ++ p.action.render ++ p.signTime)

/-- `generateAuthHeader` (click.service.ts:58-67): `Auth` header value
`merchantUserId:sha1(timestamp+secret):timestamp`, `timestamp` being
`Math.floor(Date.now() / 1000)` passed in as `nowSec`. -/
def generateAuthHeader (cfg : ClickCfg) (nowSec : Nat) : String :=
  let digest := sha1Hex (toString nowSec ++ cfg.secretKey)
  cfg.merchantUserId ++ ":" ++ digest ++ ":" ++ toString nowSec

/-- `prepare` (click.service.ts:90-188).  `now` is `new Date().getTime()`
at the creation step. -/
def clickPrepare (cfg : ClickCfg) (now : Nat) (db : Db) (dto : ClickRequest) :
    HandlerResult ClickResp :=
  let userId := dto.merchant_trans_id
  let planId := dto.param1
  let amount := dto.amount
  let transId := toString dto.click_trans_id
  let unchanged : ClickResp → HandlerResult ClickResp :=
    fun r => { resp := r, txns := db.txns, events := [] }
  if userId = "" ∨ planId = "" then
    unchanged { error := ClickError.UserNotFound, error_note := "Invalid user or plan ID" }
  else
    let myMD5Hash := generateMD5
      { clickTransId := transId, serviceId := dto.service_id,
        secretKey := cfg.secretKey, merchantTransId := userId,
        amount := amount, action := dto.action, signTime := dto.sign_time }
    if dto.sign_string ≠ myMD5Hash then
      unchanged { error := ClickError.SignFailed, error_note := "Invalid sign_string" }
    else
      match findOne (fun u : User => u.id = userId) db.users with
      | none => unchanged { error := ClickError.UserNotFound, error_note := "User not found" }
      | some _ =>
        match findOne (fun p : Plan => p.id = planId) db.plans with
        | none => unchanged { error := ClickError.UserNotFound, error_note := "Plan not found" }
        | some plan =>
          if amount ≠ plan.price then
            unchanged { error := ClickError.InvalidAmount, error_note := "Invalid amount" }
          else if (findOne (fun t : Txn =>
                     t.transId = transId ∧ t.status ≠ .PENDING) db.txns).isSome then
            unchanged { error := ClickError.AlreadyPaid, error_note := "Transaction already processed" }
          else
            { resp := { click_trans_id := some dto.click_trans_id,
                        merchant_trans_id := some userId,
                        merchant_prepare_id := some now,
                        error := ClickError.Success, error_note := "Success" },
              txns := db.txns ++
                [{ id := "", transId := transId, prepareId := now,
                   userId := userId, planId := planId, amount := amount,
                   status := .PENDING }],
              events := [] }

/-- `complete` (click.service.ts:190-329).  `activationThrows` stands for
the `botService.handlePaymentSuccess` call inside the `try` block
throwing; the `catch` only logs (`// Continue with the response even if
notification fails`). -/
def clickComplete (cfg : ClickCfg) (db : Db) (dto : ClickRequest)
    (activationThrows : Bool) : HandlerResult ClickResp :=
  let userId := dto.merchant_trans_id
  let planId := dto.param1
  let prepareId := dto.merchant_prepare_id
  let transId := toString dto.click_trans_id
  let unchanged : ClickResp → HandlerResult ClickResp :=
    fun r => { resp := r, txns := db.txns, events := [] }
  let myMD5Hash := generateMD5
    { clickTransId := transId, serviceId := dto.service_id,
      secretKey := cfg.secretKey, merchantTransId := userId,
      merchantPrepareId := some prepareId, amount := dto.amount,
      action := dto.action, signTime := dto.sign_time }
  if dto.sign_string ≠ myMD5Hash then
    unchanged { error := ClickError.SignFailed, error_note := "Invalid sign_string" }
  else
    match findOne (fun u : User => u.id = userId) db.users with
    | none => unchanged { error := ClickError.UserNotFound, error_note := "Invalid userId" }
    | some _ =>
      match findOne (fun p : Plan => p.id = planId) db.plans with
      | none => unchanged { error := ClickError.UserNotFound, error_note := "Invalid planId" }
      | some plan =>
        if (findOne (fun t : Txn =>
              t.prepareId = prepareId ∧ t.userId = userId ∧ t.planId = planId)
              db.txns).isNone then
          unchanged { error := ClickError.TransactionNotFound,
                      error_note := "Invalid merchant_prepare_id" }
        else if (findOne (fun t : Txn =>
                   t.planId = planId ∧ t.prepareId = prepareId ∧ t.status = .PAID)
                   db.txns).isSome then
          unchanged { error := ClickError.AlreadyPaid, error_note := "Already paid" }
        else if dto.amount ≠ plan.price then
          unchanged { error := ClickError.InvalidAmount, error_note := "Invalid amount" }
        else if (findOne (fun t : Txn => t.transId = transId) db.txns).any
                  (fun t => t.status = .CANCELED) then
          unchanged { error := ClickError.TransactionCanceled, error_note := "Already cancelled" }
        else if dto.error > 0 then
          { resp := { error := dto.error, error_note := "Failed" },
            txns := updateFirst (fun t : Txn => t.transId = transId)
              (fun t => { t with status := .FAILED }) db.txns,
            events := [] }
        else
          let updatedTransaction :=
            (findOne (fun t : Txn => t.transId = transId) db.txns).map
              (fun t => { t with status := .PAID })
          { resp := { click_trans_id := some dto.click_trans_id,
                      merchant_trans_id := some userId,
                      error := ClickError.Success, error_note := "Success" },
            txns := updateFirst (fun t : Txn => t.transId = transId)
              (fun t => { t with status := .PAID }) db.txns,
            events :=
              match updatedTransaction with
              | some ut =>
                if (findOne (fun u : User => u.id = ut.userId) db.users).isSome then
                  if activationThrows then []
                  else [Event.paymentSuccessNotified ut.userId]
                else []
              | none => [] }

/-- `handleMerchantTransactions` (click.service.ts:69-88): coerce
`action` with `+`, dispatch `0 → prepare`, `1 → complete`, anything else
(including `NaN` from a non-numeric value) to the
`ACTION_NOT_FOUND` response. -/
def handleMerchantTransactions (cfg : ClickCfg) (now : Nat) (db : Db)
    (dto : ClickRequest) (activationThrows : Bool) : HandlerResult ClickResp :=
  match dto.action.toNumber with
  | some 0 => clickPrepare cfg now db dto
  | some 1 => clickComplete cfg db dto activationThrows
  | _ => { resp := { error := ClickError.ActionNotFound, error_note := "Invalid action" },
           txns := db.txns, events := [] }

/-! ## The subs-api variant (`click-subs-api/click-subs-api.service.ts`)

The file holds two textually identical copies of every function embedded
here; line references are to the first copy. -/

/-- The callback DTO shared by `ClickPrepareDto` and `ClickCompleteDto`
(src/unnamed/part_008). -/
structure SubsDto where
  click_trans_id : Int
  service_id : Int
  merchant_trans_id : String
  amount : Int
  action : Int
  error : Int
  error_note : String
  sign_time : String
  sign_string : String
  merchant_prepare_id : String
deriving DecidableEq, Repr

/-- The subs-api prepare response body. -/
structure SubsPrepareResp where
  click_trans_id : Int
  merchant_trans_id : String
  merchant_prepare_id : Option String
  error : Int
  error_note : String
deriving DecidableEq, Repr

/-- The subs-api complete response body. -/
structure SubsCompleteResp where
  click_trans_id : Int
  merchant_trans_id : String
  merchant_confirm_id : Option String
  error : Int
  error_note : String
deriving DecidableEq, Repr

/-- `createSignature` (click-subs-api.service.ts:30-41): MD5 over
`click_trans_id + service_id + secretKey + merchant_trans_id + amount +
action + sign_time` — the same seven fields for prepare and complete;
`merchant_prepare_id` is never part of the signed string. -/
def createSignature (secretKey : String) (dto : SubsDto) : String :=
  md5Hex (toString dto.click_trans_id ++ toString dto.service_id ++ secretKey ++
    dto.merchant_trans_id ++ toString dto.amount ++ toString dto.action ++
    dto.sign_time)

/-- `prepareTransaction` (click-subs-api.service.ts:43-111): looks up the
pre-created Transaction by `_id = merchant_trans_id` and moves it
`PENDING → PROCESSING`. -/
def prepareTransaction (cfg : ClickCfg) (db : Db) (dto : SubsDto) :
    HandlerResult SubsPrepareResp :=
  let reply : Option String → Int → String → SubsPrepareResp :=
    fun pid e note =>
      { click_trans_id := dto.click_trans_id,
        merchant_trans_id := dto.merchant_trans_id,
        merchant_prepare_id := pid, error := e, error_note := note }
  let unchanged : SubsPrepareResp → HandlerResult SubsPrepareResp :=
    fun r => { resp := r, txns := db.txns, events := [] }
  if dto.error ≠ 0 then
    unchanged (reply none ClickError.ActionNotFound "Action not found")
  else if createSignature cfg.secretKey dto ≠ dto.sign_string then
    unchanged (reply none ClickError.SignFailed "SIGN CHECK FAILED!")
  else
    match findOne (fun t : Txn => t.id = dto.merchant_trans_id) db.txns with
    | none => unchanged (reply none ClickError.TransactionNotFound "Transaction does not exist")
    | some transaction =>
      if transaction.amount ≠ dto.amount then
        unchanged (reply none ClickError.InvalidAmount "Incorrect parameter amount")
      else if transaction.status ≠ .PENDING then
        unchanged (reply none ClickError.TransactionCanceled "Transaction cancelled")
      else
        { resp := reply (some transaction.id) 0 "Success",
          txns := updateFirst (fun t : Txn => t.id = dto.merchant_trans_id)
            (fun t => { t with status := .PROCESSING }) db.txns,
          events := [] }

/-- `completeTransaction` (click-subs-api.service.ts:113-229).  The
activation block (`UserSubscription.create` + `user.save`) runs exactly
when user and plan resolve, and is recorded as a
`subscriptionActivated` event. -/
def completeTransaction (cfg : ClickCfg) (db : Db) (dto : SubsDto) :
    HandlerResult SubsCompleteResp :=
  let reply : Option String → Int → String → SubsCompleteResp :=
    fun cid e note =>
      { click_trans_id := dto.click_trans_id,
        merchant_trans_id := dto.merchant_trans_id,
        merchant_confirm_id := cid, error := e, error_note := note }
  let unchanged : SubsCompleteResp → HandlerResult SubsCompleteResp :=
    fun r => { resp := r, txns := db.txns, events := [] }
  if dto.error ≠ 0 then
    unchanged (reply none dto.error dto.error_note)
  else if createSignature cfg.secretKey dto ≠ dto.sign_string then
    unchanged (reply none ClickError.SignFailed "SIGN CHECK FAILED!")
  else
    match findOne (fun t : Txn => t.id = dto.merchant_trans_id) db.txns with
    | none => unchanged (reply none ClickError.TransactionNotFound "Transaction does not exist")
    | some transaction =>
      if transaction.status = .COMPLETED then
        unchanged (reply (some transaction.id) 0 "Already completed")
      else if transaction.status ≠ .PROCESSING then
        unchanged (reply none ClickError.TransactionCanceled "Transaction cancelled")
      else if dto.error < 0 then
        { resp := reply none dto.error dto.error_note,
          txns := updateFirst (fun t : Txn => t.id = dto.merchant_trans_id)
            (fun t => { t with status := .FAILED }) db.txns,
          events := [] }
      else
        { resp := reply (some transaction.id) 0 "Success",
          txns := updateFirst (fun t : Txn => t.id = dto.merchant_trans_id)
            (fun t => { t with status := .COMPLETED }) db.txns,
          events :=
            if (findOne (fun u : User => u.id = transaction.userId) db.users).isSome ∧
               (findOne (fun p : Plan => p.id = transaction.planId) db.plans).isSome then
              [Event.subscriptionActivated transaction.userId transaction.planId]
            else [] }

/-- `getHeaders` (click-subs-api.service.ts:231-243): the `Auth` header
built from `new Date().toISOString()` (passed in as `nowIso`) and a
SHA-256 digest of `timestamp + secretKey`. -/
def getHeadersAuth (cfg : ClickCfg) (nowIso : String) : String :=
  let digest := sha256Hex (nowIso ++ cfg.secretKey)
  cfg.merchantUserId ++ ":" ++ digest ++ ":" ++ nowIso

/-! ## The part_003 click variant (`src/unnamed/part_003`) -/

/-- `complete` (part_003:166-339).  Field mapping differs from
click.service.ts (`merchant_trans_id` is the plan id, `param2` the user
id) and the activation `try` block ends in `catch { log; throw error }`:
an activation failure propagates out of the handler.  The result's
`resp` is `Except.error ()` when the handler throws.  `activationThrows`
stands for the side-effect block (user save, `UserSubscription.create`,
bot notification) throwing. -/
def p3Complete (cfg : ClickCfg) (db : Db) (dto : ClickRequest)
    (activationThrows : Bool) : HandlerResult (Except Unit ClickResp) :=
  let planId := dto.merchant_trans_id
  let userId := dto.param2
  let prepareId := dto.merchant_prepare_id
  let transId := toString dto.click_trans_id
  let unchanged : ClickResp → HandlerResult (Except Unit ClickResp) :=
    fun r => { resp := .ok r, txns := db.txns, events := [] }
  let myMD5Hash := generateMD5
    { clickTransId := transId, serviceId := dto.service_id,
      secretKey := cfg.secretKey, merchantTransId := planId,
      merchantPrepareId := some prepareId, amount := dto.amount,
      action := dto.action, signTime := dto.sign_time }
  if dto.sign_string ≠ myMD5Hash then
    unchanged { error := ClickError.SignFailed, error_note := "Invalid sign_string" }
  else
    match findOne (fun u : User => u.id = userId) db.users with
    | none => unchanged { error := ClickError.UserNotFound, error_note := "Invalid userId" }
    | some _ =>
      match findOne (fun p : Plan => p.id = planId) db.plans with
      | none => unchanged { error := ClickError.UserNotFound, error_note := "Invalid planId" }
      | some plan =>
        if (findOne (fun t : Txn =>
              t.prepareId = prepareId ∧ t.userId = userId ∧ t.planId = planId)
              db.txns).isNone then
          unchanged { error := ClickError.TransactionNotFound,
                      error_note := "Invalid merchant_prepare_id" }
        else if (findOne (fun t : Txn =>
                   t.planId = planId ∧ t.prepareId = prepareId ∧ t.status = .PAID)
                   db.txns).isSome then
          unchanged { error := ClickError.AlreadyPaid, error_note := "Already paid" }
        else if dto.amount ≠ plan.price then
          unchanged { error := ClickError.InvalidAmount, error_note := "Invalid amount" }
        else
          let transaction := findOne (fun t : Txn => t.transId = transId) db.txns
          if transaction.any (fun t => t.status = .CANCELED) then
            unchanged { error := ClickError.TransactionCanceled, error_note := "Already cancelled" }
          else if dto.error > 0 then
            { resp := .ok { error := dto.error, error_note := "Failed" },
              txns := updateFirst (fun t : Txn => t.transId = transId)
                (fun t => { t with status := .FAILED }) db.txns,
              events := [] }
          else
            let txnsAfter := updateFirst (fun t : Txn => t.transId = transId)
              (fun t => { t with status := .PAID }) db.txns
            match transaction with
            | some t =>
              if (findOne (fun u : User => u.id = t.userId) db.users).isSome then
                if activationThrows then
                  { resp := .error (), txns := txnsAfter, events := [] }
                else
                  { resp := .ok { click_trans_id := some dto.click_trans_id,
                                  merchant_trans_id := some planId,
                                  error := ClickError.Success, error_note := "Success" },
                    txns := txnsAfter,
                    events := [Event.subscriptionActivated t.userId t.planId] }
              else
                { resp := .ok { click_trans_id := some dto.click_trans_id,
                                merchant_trans_id := some planId,
                                error := ClickError.Success, error_note := "Success" },
                  txns := txnsAfter, events := [] }
            | none =>
              { resp := .ok { click_trans_id := some dto.click_trans_id,
                              merchant_trans_id := some planId,
                              error := ClickError.Success, error_note := "Success" },
                txns := txnsAfter, events := [] }

/-! ## The resilient gateway client (second subs-api copy) -/

/-- An axios failure as `retryRequest` inspects it: `error.code` and
`error.response?.status`. -/
structure AxiosErr where
  code : Option String
  status : Option Nat
deriving DecidableEq, Repr

/-- The retry condition of `retryRequest`
(click-subs-api.service.ts:1230-1233): timeout (`ECONNABORTED`) or
HTTP 504/502/503. -/
def retriable (e : AxiosErr) : Prop :=
  e.code = some "ECONNABORTED" ∨ e.status = some 504 ∨ e.status = some 502 ∨
    e.status = some 503

instance (e : AxiosErr) : Decidable (retriable e) := by
  unfold retriable; infer_instance

/-- Loop body of `retryRequest` (click-subs-api.service.ts:1212-1244).
`attempt i` is the outcome of the `i`-th call of `requestFn`; `n` is the
number of iterations still allowed after the current one
(`maxRetries - i`); `delay` is the current backoff in milliseconds
(exact ℚ model of the float `delay *= 1.5`); `delays` accumulates the
waits performed, so `delays.length` counts the retries taken. -/
def retryAux {T : Type} (attempt : Nat → Except AxiosErr T) :
    Nat → Nat → ℚ → List ℚ → Except AxiosErr T × List ℚ
  | i, n, delay, delays =>
    match attempt i with
    | .ok v => (.ok v, delays)
    | .error e =>
      match n with
      | 0 => (.error e, delays)
      | n + 1 =>
        if retriable e then
          retryAux attempt (i + 1) n (delay * (3 / 2)) (delays ++ [delay])
        else
          (.error e, delays)

/-- `retryRequest(requestFn, maxRetries, delay)`: result plus the backoff
waits performed. -/
def retryRequest {T : Type} (attempt : Nat → Except AxiosErr T)
    (maxRetries : Nat) (delay : ℚ) : Except AxiosErr T × List ℚ :=
  retryAux attempt 0 maxRetries delay []

/-- Candidate loop of `retryWithMultipleUrls`: run
`retryRequest(fn, 2, 1000)` per candidate URL, return the first success,
otherwise thread `lastError` forward. -/
def tryCandidates {T : Type} :
    List (Nat → Except AxiosErr T) → Option AxiosErr → Option T × Option AxiosErr
  | [], lastError => (none, lastError)
  | f :: rest, lastError =>
    match (retryRequest f 2 1000).1 with
    | .ok v => (some v, lastError)
    | .error e => tryCandidates rest (some e)

/-- `retryWithMultipleUrls` (click-subs-api.service.ts:619-675): try each
candidate base URL with a 2-retry `retryRequest`; when all fail,
development mode substitutes a mock response and production re-throws
the last error. -/
def retryWithMultipleUrls {T : Type} (attempts : List (Nat → Except AxiosErr T))
    (isDevelopment : Bool) (mock : T) : Except (Option AxiosErr) T :=
  match tryCandidates attempts none with
  | (some v, _) => .ok v
  | (none, lastError) =>
    if isDevelopment then .ok mock else .error lastError

/-! ## Structural digest lemmas -/

theorem bytesToHex_data (bs : List Nat) :
    (bytesToHex bs).data = bs.flatMap byteToHex := rfl

theorem bytesToHex_length (bs : List Nat) :
    (bytesToHex bs).length = 2 * bs.length := by
  show (bs.flatMap byteToHex).length = 2 * bs.length
  induction bs with
  | nil => rfl
  | cons b bs ih =>
    simp only [List.flatMap_cons, List.length_append, ih, byteToHex,
      List.length_cons, List.length_nil]
    omega

theorem hexChar_mem (n : Nat) : hexChar n ∈ hexDigits := by
  by_cases h : n < 16
  · interval_cases n <;> decide
  · unfold hexChar
    rw [List.getD_eq_default]
    · decide
    · simp only [hexDigits, List.length_cons, List.length_nil]; omega

theorem bytesToHex_chars (bs : List Nat) :
    ∀ c ∈ (bytesToHex bs).data, c ∈ hexDigits := by
  intro c hc
  rw [bytesToHex_data] at hc
  rcases List.mem_flatMap.mp hc with ⟨b, _, hcb⟩
  simp only [byteToHex, List.mem_cons, List.not_mem_nil, or_false] at hcb
  rcases hcb with h | h <;> exact h ▸ hexChar_mem _

theorem md5Bytes_length (msg : List Nat) : (md5Bytes msg).length = 16 := by
  unfold md5Bytes
  generalize (chunks64 (padMessage msg len64LE)).foldl md5Block
    (1732584193, 4023233417, 2562383102, 271733878) = r
  obtain ⟨a, b, c, d⟩ := r
  simp [wordToBytesLE]

theorem sha1Bytes_length (msg : List Nat) : (sha1Bytes msg).length = 20 := by
  unfold sha1Bytes
  generalize (chunks64 (padMessage msg len64BE)).foldl sha1Block
    (1732584193, 4023233417, 2562383102, 271733878, 3285377520) = r
  obtain ⟨a, b, c, d, e⟩ := r
  simp [wordToBytesBE]

theorem sha256Bytes_length (msg : List Nat) : (sha256Bytes msg).length = 32 := by
  unfold sha256Bytes
  simp [wordToBytesBE]

theorem md5Hex_length (s : String) : (md5Hex s).length = 32 := by
  unfold md5Hex
  rw [bytesToHex_length, md5Bytes_length]

theorem sha1Hex_length (s : String) : (sha1Hex s).length = 40 := by
  unfold sha1Hex
  rw [bytesToHex_length, sha1Bytes_length]

theorem sha256Hex_length (s : String) : (sha256Hex s).length = 64 := by
  unfold sha256Hex
  rw [bytesToHex_length, sha256Bytes_length]

theorem md5Hex_chars (s : String) : ∀ c ∈ (md5Hex s).data, c ∈ hexDigits :=
  bytesToHex_chars _

/-! ## Concrete fixtures used by witnesses and counterexamples -/

/-- A concrete configuration. -/
def cfgX : ClickCfg := { secretKey := "secret", merchantUserId := "user1" }

/-- A concrete plan priced 50000. -/
def planA : Plan := { id := "plan1", price := 50000, name := "Premium" }

/-- A concrete user. -/
def userA : User := { id := "u1", telegramId := 777 }

/-! ## C10 -/

/-- C10: a callback whose coerced `action` is neither 0 (prepare) nor 1
(complete) — including a non-numeric action, which coerces to `NaN` — is
answered with the structured `ACTION_NOT_FOUND` (-3) response; the
transaction store is neither read (the response is the same for any two
stores) nor written, and no side effect runs. -/
theorem unknownAction_rejected (cfg : ClickCfg) (now : Nat) (db db' : Db)
    (dto : ClickRequest) (act : Bool)
    (h0 : dto.action.toNumber ≠ some 0) (h1 : dto.action.toNumber ≠ some 1) :
    (handleMerchantTransactions cfg now db dto act).resp =
      { error := ClickError.ActionNotFound, error_note := "Invalid action" } ∧
    (handleMerchantTransactions cfg now db dto act).txns = db.txns ∧
    (handleMerchantTransactions cfg now db dto act).events = [] ∧
    (handleMerchantTransactions cfg now db dto act).resp =
      (handleMerchantTransactions cfg now db' dto act).resp := by
  have key : ∀ d : Db, handleMerchantTransactions cfg now d dto act =
      { resp := { error := ClickError.ActionNotFound, error_note := "Invalid action" },
        txns := d.txns, events := [] } := by
    intro d
    unfold handleMerchantTransactions
    split
    · exact absurd ‹_› h0
    · exact absurd ‹_› h1
    · rfl
  rw [key db, key db']
  exact ⟨rfl, rfl, rfl, rfl⟩

/-- Witness for C10 at a non-numeric action value. -/
theorem unknownAction_rejected_witness :
    (handleMerchantTransactions cfgX 5
        { txns := [], users := [userA], plans := [planA] }
        { click_trans_id := 9, service_id := 2, merchant_trans_id := "u1",
          param1 := "plan1", param2 := "", amount := 50000, action := .nan,
          error := 0, sign_time := "t", sign_string := "x",
          merchant_prepare_id := 0 } false).resp =
      { error := ClickError.ActionNotFound, error_note := "Invalid action" } :=
  (unknownAction_rejected cfgX 5
    { txns := [], users := [userA], plans := [planA] }
    { txns := [], users := [], plans := [] }
    { click_trans_id := 9, service_id := 2, merchant_trans_id := "u1",
      param1 := "plan1", param2 := "", amount := 50000, action := .nan,
      error := 0, sign_time := "t", sign_string := "x",
      merchant_prepare_id := 0 } false (by decide) (by decide)).1

/-! ## C9 -/

theorem retryAux_ok {T : Type} {f : Nat → Except AxiosErr T} {i : Nat} {v : T}
    (n : Nat) (d : ℚ) (acc : List ℚ) (h : f i = .ok v) :
    retryAux f i n d acc = (.ok v, acc) := by
  unfold retryAux
  simp only [h]

theorem retryAux_err_zero {T : Type} {f : Nat → Except AxiosErr T} {i : Nat}
    {e : AxiosErr} (d : ℚ) (acc : List ℚ) (h : f i = .error e) :
    retryAux f i 0 d acc = (.error e, acc) := by
  unfold retryAux
  simp only [h]

theorem retryAux_err_retry {T : Type} {f : Nat → Except AxiosErr T} {i : Nat}
    {e : AxiosErr} (n : Nat) (d : ℚ) (acc : List ℚ) (h : f i = .error e)
    (hr : retriable e) :
    retryAux f i (n + 1) d acc = retryAux f (i + 1) n (d * (3 / 2)) (acc ++ [d]) := by
  conv_lhs => unfold retryAux
  simp only [h]
  rw [if_pos hr]

theorem retryAux_err_stop {T : Type} {f : Nat → Except AxiosErr T} {i : Nat}
    {e : AxiosErr} (n : Nat) (d : ℚ) (acc : List ℚ) (h : f i = .error e)
    (hr : ¬ retriable e) :
    retryAux f i (n + 1) d acc = (.error e, acc) := by
  unfold retryAux
  simp only [h]
  rw [if_neg hr]

theorem retryAux_delays {T : Type} (f : Nat → Except AxiosErr T) :
    ∀ (n i : Nat) (d : ℚ) (acc : List ℚ),
    ∃ j ≤ n, (retryAux f i n d acc).2 =
      acc ++ (List.range j).map (fun k => d * (3 / 2) ^ k) := by
  intro n
  induction n with
  | zero =>
    intro i d acc
    refine ⟨0, le_refl 0, ?_⟩
    cases h : f i with
    | ok v => rw [retryAux_ok 0 d acc h]; simp
    | error e => rw [retryAux_err_zero d acc h]; simp
  | succ n ih =>
    intro i d acc
    cases h : f i with
    | ok v => exact ⟨0, Nat.zero_le _, by rw [retryAux_ok (n + 1) d acc h]; simp⟩
    | error e =>
      by_cases hr : retriable e
      · rw [retryAux_err_retry n d acc h hr]
        obtain ⟨j, hj, heq⟩ := ih (i + 1) (d * (3 / 2)) (acc ++ [d])
        refine ⟨j + 1, Nat.succ_le_succ hj, ?_⟩
        rw [heq, List.append_assoc]
        congr 1
        rw [List.range_succ_eq_map, List.map_cons, List.map_map]
        simp only [pow_zero, mul_one, List.cons_append, List.nil_append]
        congr 1
        apply List.map_congr_left
        intro a _
        simp only [Function.comp_apply]
        rw [Nat.succ_eq_add_one, pow_succ]
        ring
      · rw [retryAux_err_stop n d acc h hr]
        exact ⟨0, Nat.zero_le _, by simp⟩

/-- C9: within one endpoint candidate, `retryRequest` retries exactly the
retriable transport failures: a non-retriable first failure (for
instance HTTP 400/401/403) is surfaced at once with no retry; a retriable
first failure (timeout `ECONNABORTED` or HTTP 502/503/504) is retried
whenever attempts remain; the number of backoff waits never exceeds
`maxRetries` and the waits grow geometrically as `delay * (3/2)^k`. -/
theorem retryRequest_retry_iff {T : Type} (f : Nat → Except AxiosErr T)
    (m : Nat) (d : ℚ) :
    (∀ e, f 0 = .error e → ¬ retriable e → retryRequest f m d = (.error e, [])) ∧
    (∀ e, f 0 = .error e → retriable e → 1 ≤ m →
      (retryRequest f m d).2.take 1 = [d]) ∧
    ((retryRequest f m d).2 ≠ [] → ∃ e, f 0 = .error e ∧ retriable e) ∧
    (∃ j ≤ m, (retryRequest f m d).2 = (List.range j).map (fun k => d * (3 / 2) ^ k)) ∧
    ¬ retriable ⟨none, some 400⟩ ∧ ¬ retriable ⟨none, some 401⟩ ∧
    ¬ retriable ⟨none, some 403⟩ ∧ retriable ⟨some "ECONNABORTED", none⟩ ∧
    retriable ⟨none, some 502⟩ ∧ retriable ⟨none, some 503⟩ ∧
    retriable ⟨none, some 504⟩ := by
  refine ⟨?_, ?_, ?_, ?_, by decide, by decide, by decide, by decide,
    by decide, by decide, by decide⟩
  · intro e he hne
    unfold retryRequest
    cases m with
    | zero => rw [retryAux_err_zero d [] he]
    | succ n => rw [retryAux_err_stop n d [] he hne]
  · intro e he hr hm
    obtain ⟨n, rfl⟩ := Nat.exists_eq_add_of_le hm
    rw [Nat.add_comm 1 n]
    unfold retryRequest
    rw [retryAux_err_retry n d [] he hr]
    obtain ⟨j, _, heq⟩ := retryAux_delays f n (0 + 1) (d * (3 / 2)) ([] ++ [d])
    rw [heq]
    simp
  · intro hne
    unfold retryRequest at hne
    cases he : f 0 with
    | ok v => rw [retryAux_ok m d [] he] at hne; exact absurd rfl hne
    | error e =>
      cases m with
      | zero => rw [retryAux_err_zero d [] he] at hne; exact absurd rfl hne
      | succ n =>
        by_cases hr : retriable e
        · exact ⟨e, rfl, hr⟩
        · rw [retryAux_err_stop n d [] he hr] at hne; exact absurd rfl hne
  · obtain ⟨j, hj, heq⟩ := retryAux_delays f m 0 d []
    rw [List.nil_append] at heq
    exact ⟨j, hj, heq⟩

/-- Witness for C9: a 400 response is not retried, a timeout is retried
with first wait 1000ms, as in the deployed `retryRequest(fn, 2, 1000)`. -/
theorem retryRequest_retry_iff_witness :
    retryRequest (fun _ => (.error ⟨none, some 400⟩ : Except AxiosErr Unit)) 2 1000 =
      (.error ⟨none, some 400⟩, []) ∧
    (retryRequest (fun _ => (.error ⟨some "ECONNABORTED", none⟩ : Except AxiosErr Unit))
        2 1000).2.take 1 = [1000] := by
  constructor
  · exact (retryRequest_retry_iff (fun _ => .error ⟨none, some 400⟩) 2 1000).1
      ⟨none, some 400⟩ rfl (by decide)
  · exact (retryRequest_retry_iff (fun _ => .error ⟨some "ECONNABORTED", none⟩) 2 1000).2.1
      ⟨some "ECONNABORTED", none⟩ rfl (by decide) (by decide)

/-! ## C8 -/

theorem toDigitsCore_length_lower (f : Nat) :
    ∀ (n : Nat) (acc : List Char),
    acc.length + 1 ≤ (Nat.toDigitsCore 10 (f + 1) n acc).length := by
  induction f with
  | zero =>
    intro n acc
    simp only [Nat.toDigitsCore]
    by_cases h : n / 10 = 0 <;> simp [h]
  | succ f ih =>
    intro n acc
    simp only [Nat.toDigitsCore]
    by_cases h : n / 10 = 0
    · simp [h]
    · simp only [h, if_false]
      calc acc.length + 1 ≤ acc.length + 1 + 1 := by omega
        _ = (Nat.digitChar (n % 10) :: acc).length + 1 := by simp
        _ ≤ _ := ih (n / 10) (Nat.digitChar (n % 10) :: acc)

theorem toDigitsCore_length_lower_pow (f : Nat) :
    ∀ (e n : Nat) (acc : List Char), 10 ^ e ≤ n → e < f →
    e + 1 + acc.length ≤ (Nat.toDigitsCore 10 f n acc).length := by
  induction f with
  | zero => intro e n acc _ he; omega
  | succ f ih =>
    intro e n acc hpow he
    simp only [Nat.toDigitsCore]
    by_cases h : n / 10 = 0
    · have hn : n < 10 := (Nat.div_eq_zero_iff (by norm_num)).mp h
      have he0 : e = 0 := by
        by_contra hne
        have : 10 ≤ 10 ^ e := by
          calc (10 : Nat) = 10 ^ 1 := (pow_one 10).symm
            _ ≤ 10 ^ e := Nat.pow_le_pow_right (by norm_num) (by omega)
        omega
      subst he0
      simp [h]
      omega
    · simp only [h, if_false]
      cases e with
      | zero =>
        cases f with
        | zero =>
          simp only [Nat.toDigitsCore, List.length_cons]
          omega
        | succ f =>
          calc 0 + 1 + acc.length ≤ (Nat.digitChar (n % 10) :: acc).length + 1 := by simp; omega
            _ ≤ _ := toDigitsCore_length_lower f (n / 10) (Nat.digitChar (n % 10) :: acc)
      | succ e =>
        have hdiv : 10 ^ e ≤ n / 10 := by
          rw [Nat.le_div_iff_mul_le (by norm_num)]
          calc 10 ^ e * 10 = 10 ^ (e + 1) := (pow_succ 10 e).symm
            _ ≤ n := hpow
        have := ih e (n / 10) (Nat.digitChar (n % 10) :: acc) hdiv (by omega)
        simp only [List.length_cons] at this
        omega

/-- A number at least `10^e` needs at least `e + 1` decimal digits. -/
theorem repr_length_lower (n e : Nat) (h : 10 ^ e ≤ n) :
    e + 1 ≤ (Nat.repr n).length := by
  have hef : e < n + 1 := by
    have : e < 10 ^ e := Nat.lt_pow_self (by norm_num) e
    omega
  have := toDigitsCore_length_lower_pow (n + 1) e n [] h hef
  simpa [Nat.repr, Nat.toDigits, List.asString] using this

/-- The decimal rendering of a Unix-seconds value in the current epoch
range (`10^9 ≤ ts < 10^10`, i.e. 2001-09-09 through 2286-11-20) has
exactly 10 digits. -/
theorem repr_length_ten (ts : Nat) (h9 : 10 ^ 9 ≤ ts) (h10 : ts < 10 ^ 10) :
    (Nat.repr ts).length = 10 :=
  le_antisymm (Nat.repr_length ts 10 (by norm_num) h10) (repr_length_lower ts 9 h9)

theorem sha1Hex_chars (s : String) : ∀ c ∈ (sha1Hex s).data, c ∈ hexDigits :=
  bytesToHex_chars _

/-- C8, amended: the click.service `generateAuthHeader` produces
`merchantUserId:digest:timestamp` with `timestamp` the Unix time in whole
seconds (exactly 10 decimal digits in the current epoch range) and
`digest` the 40-lowercase-hex SHA-1 of `timestamp + secret`; being a pure
function of the second, two headers from the same second and inputs are
byte-identical.  (The subs-api `getHeaders` does not satisfy this —
see the counterexample.) -/
theorem generateAuthHeader_spec (cfg : ClickCfg) (ts : Nat)
    (h9 : 10 ^ 9 ≤ ts) (h10 : ts < 10 ^ 10) :
    generateAuthHeader cfg ts =
      cfg.merchantUserId ++ ":" ++ sha1Hex (toString ts ++ cfg.secretKey) ++
        ":" ++ toString ts ∧
    (sha1Hex (toString ts ++ cfg.secretKey)).length = 40 ∧
    (∀ c ∈ (sha1Hex (toString ts ++ cfg.secretKey)).data, c ∈ hexDigits) ∧
    (toString ts).length = 10 :=
  ⟨rfl, sha1Hex_length _, sha1Hex_chars _, repr_length_ten ts h9 h10⟩

/-- Witness for C8 at the second 1700000000. -/
theorem generateAuthHeader_spec_witness :
    generateAuthHeader cfgX 1700000000 =
      "user1" ++ ":" ++ sha1Hex (toString (1700000000 : Nat) ++ "secret") ++
        ":" ++ toString (1700000000 : Nat) ∧
    (toString (1700000000 : Nat)).length = 10 :=
  let h := generateAuthHeader_spec cfgX 1700000000 (by norm_num) (by norm_num)
  ⟨h.1, h.2.2.2⟩

/-- C8 counterexample: at the instant 1700000000000 ms
(`new Date().toISOString()` = `"2023-11-14T22:13:20.000Z"`,
`Math.floor(Date.now()/1000)` = `1700000000`), the subs-api `getHeaders`
`Auth` value is not the string the claim mandates (the one
`generateAuthHeader` builds): its digest is 64-hex SHA-256 and its
timestamp the 24-character ISO string, so even the lengths differ. -/
theorem getHeaders_violates_claim :
    getHeadersAuth cfgX "2023-11-14T22:13:20.000Z" ≠
      generateAuthHeader cfgX 1700000000 := by
  intro h
  have hl := congrArg String.length h
  unfold getHeadersAuth generateAuthHeader at hl
  simp only [String.length_append, sha256Hex_length, sha1Hex_length] at hl
  revert hl
  decide

/-! ## C6 -/

theorem md5Hex_length_32 (s : String) : (md5Hex s).length = 32 := md5Hex_length s

/-- C6, amended: the callback signature is the MD5 digest (32 lowercase
hex characters) of the fixed-order concatenation `click_trans_id ++
service_id ++ secret ++ merchant_trans_id ++ amount ++ action ++
sign_time`.  In the click.service variant the complete-action tuple
additionally carries `merchant_prepare_id` between the merchant-facing id
and the amount; in the subs-api variant `createSignature` signs the same
seven fields for prepare and complete and the prepare id is not part of
the signed string (changing it leaves the signature unchanged). -/
theorem signature_scheme (secretKey : String) (dto : SubsDto)
    (p : Md5HashParams) (pid : Nat) (pid' : String) :
    createSignature secretKey dto =
      md5Hex (toString dto.click_trans_id ++ toString dto.service_id ++
        secretKey ++ dto.merchant_trans_id ++ toString dto.amount ++
        toString dto.action ++ dto.sign_time) ∧
    (createSignature secretKey dto).length = 32 ∧
    (∀ c ∈ (createSignature secretKey dto).data, c ∈ hexDigits) ∧
    createSignature secretKey { dto with merchant_prepare_id := pid' } =
      createSignature secretKey dto ∧
    generateMD5 { p with merchantPrepareId := some pid } =
      md5Hex (p.clickTransId ++ toString p.serviceId ++ p.secretKey ++
        p.merchantTransId ++ toString pid ++ toString p.amount ++
        p.action.render ++ p.signTime) :=
  ⟨rfl, md5Hex_length _, md5Hex_chars _, rfl, rfl⟩

/-- C6 counterexample: for a concrete complete callback the subs-api
`createSignature` differs from the claim's digest, which inserts
`merchant_prepare_id` ("p42") between the merchant-facing id and the
amount — the prepare id is simply not signed in this variant. -/
theorem createSignature_omits_prepare_id :
    createSignature "secret"
      { click_trans_id := 1, service_id := 2, merchant_trans_id := "m1",
        amount := 50000, action := 1, error := 0, error_note := "",
        sign_time := "2024-01-01 00:00:00", sign_string := "",
        merchant_prepare_id := "p42" } ≠
    md5Hex ("1" ++ "2" ++ "secret" ++ "m1" ++ "p42" ++ "50000" ++ "1" ++
      "2024-01-01 00:00:00") := by
  decide

/-! ## C2 and C7: the prepare paths -/

/-- A transaction as a first prepare of the click variant leaves it:
`PENDING`, keyed by gateway id "9" / prepare id 111 (its `id` doubles as
the subs-api `_id`). -/
def txnPending : Txn :=
  { id := "m1", transId := "9", prepareId := 111, userId := "u1",
    planId := "plan1", amount := 50000, status := .PENDING }

/-- A correctly signed click-variant prepare callback for `txnPending`'s
user/plan/gateway id. -/
def dtoPrepare : ClickRequest :=
  { click_trans_id := 9, service_id := 2, merchant_trans_id := "u1",
    param1 := "plan1", param2 := "", amount := 50000, action := .int 0,
    error := 0, sign_time := "tt",
    sign_string := generateMD5
      { clickTransId := "9", serviceId := 2, secretKey := "secret",
        merchantTransId := "u1", amount := 50000, action := .int 0,
        signTime := "tt" },
    merchant_prepare_id := 0 }

/-- C2, amended: a prepare callback whose gateway transaction id already
has a Transaction record in a status other than `PENDING` is rejected
with `ALREADY_PAID` and creates no second record (the code's duplicate
check is `status ≠ PENDING`; a still-`PENDING` record does not trigger
it — see the counterexample). -/
theorem duplicatePrepare_rejected (cfg : ClickCfg) (now : Nat) (db : Db)
    (dto : ClickRequest)
    (hid : ¬(dto.merchant_trans_id = "" ∨ dto.param1 = ""))
    (hsig : dto.sign_string = generateMD5
      { clickTransId := toString dto.click_trans_id, serviceId := dto.service_id,
        secretKey := cfg.secretKey, merchantTransId := dto.merchant_trans_id,
        amount := dto.amount, action := dto.action, signTime := dto.sign_time })
    (hu : ∃ u, findOne (fun u : User => u.id = dto.merchant_trans_id) db.users = some u)
    (hp : ∃ plan, findOne (fun p : Plan => p.id = dto.param1) db.plans = some plan ∧
      dto.amount = plan.price)
    (hdup : (findOne (fun t : Txn => t.transId = toString dto.click_trans_id ∧
      t.status ≠ TransactionStatus.PENDING) db.txns).isSome) :
    clickPrepare cfg now db dto =
      { resp := { error := ClickError.AlreadyPaid,
                  error_note := "Transaction already processed" },
        txns := db.txns, events := [] } := by
  obtain ⟨u, hu⟩ := hu
  obtain ⟨plan, hpl, hamt⟩ := hp
  simp only [clickPrepare]
  rw [if_neg hid, if_neg (not_not_intro hsig), hu, hpl]
  dsimp only
  rw [if_neg (not_not_intro hamt), if_pos hdup]

/-- Witness for C2: a second prepare against a `PAID` record for gateway
id 9 is rejected with `ALREADY_PAID` (-4) and the store is unchanged. -/
theorem duplicatePrepare_rejected_witness :
    clickPrepare cfgX 222
      { txns := [{ txnPending with status := .PAID }], users := [userA],
        plans := [planA] } dtoPrepare =
      { resp := { error := ClickError.AlreadyPaid,
                  error_note := "Transaction already processed" },
        txns := [{ txnPending with status := .PAID }], events := [] } :=
  duplicatePrepare_rejected cfgX 222
    { txns := [{ txnPending with status := .PAID }], users := [userA],
      plans := [planA] } dtoPrepare
    (by decide) rfl ⟨userA, by decide⟩ ⟨planA, by decide, by decide⟩ (by decide)

/-- C2 counterexample: when the existing record for gateway id 9 is still
`PENDING` (exactly the state a first prepare leaves), the second prepare
is *not* rejected: it answers `SUCCESS` (0, not `ALREADY_PAID` = -4) and
appends a second record for the same gateway id. -/
theorem secondPrepare_pending_not_rejected :
    (clickPrepare cfgX 222
      { txns := [txnPending], users := [userA], plans := [planA] }
      dtoPrepare).resp.error = ClickError.Success ∧
    (clickPrepare cfgX 222
      { txns := [txnPending], users := [userA], plans := [planA] }
      dtoPrepare).txns.length = 2 := by
  decide

/-- C7, amended: in the click.service variant, a valid,
signature-verified prepare with no non-`PENDING` duplicate creates a new
Transaction in `PENDING` carrying the freshly generated timestamp id
`now` as `prepareId`, and answers `SUCCESS` with that id.  (The subs-api
`prepareTransaction` instead moves a pre-created transaction from
`PENDING` to `PROCESSING` and echoes its `_id` — see the
counterexample.) -/
theorem prepare_creates_pending (cfg : ClickCfg) (now : Nat) (db : Db)
    (dto : ClickRequest)
    (hid : ¬(dto.merchant_trans_id = "" ∨ dto.param1 = ""))
    (hsig : dto.sign_string = generateMD5
      { clickTransId := toString dto.click_trans_id, serviceId := dto.service_id,
        secretKey := cfg.secretKey, merchantTransId := dto.merchant_trans_id,
        amount := dto.amount, action := dto.action, signTime := dto.sign_time })
    (hu : ∃ u, findOne (fun u : User => u.id = dto.merchant_trans_id) db.users = some u)
    (hp : ∃ plan, findOne (fun p : Plan => p.id = dto.param1) db.plans = some plan ∧
      dto.amount = plan.price)
    (hdup : ¬ (findOne (fun t : Txn => t.transId = toString dto.click_trans_id ∧
      t.status ≠ TransactionStatus.PENDING) db.txns).isSome) :
    clickPrepare cfg now db dto =
      { resp := { click_trans_id := some dto.click_trans_id,
                  merchant_trans_id := some dto.merchant_trans_id,
                  merchant_prepare_id := some now,
                  error := ClickError.Success, error_note := "Success" },
        txns := db.txns ++
          [{ id := "", transId := toString dto.click_trans_id, prepareId := now,
             userId := dto.merchant_trans_id, planId := dto.param1,
             amount := dto.amount, status := .PENDING }],
        events := [] } := by
  obtain ⟨u, hu⟩ := hu
  obtain ⟨plan, hpl, hamt⟩ := hp
  simp only [clickPrepare]
  rw [if_neg hid, if_neg (not_not_intro hsig), hu, hpl]
  dsimp only
  rw [if_neg (not_not_intro hamt), if_neg hdup]

/-- Witness for C7 on an empty store: the record is created in `PENDING`
with `prepareId = 222` and the response returns 222 with `SUCCESS`. -/
theorem prepare_creates_pending_witness :
    clickPrepare cfgX 222 { txns := [], users := [userA], plans := [planA] }
      dtoPrepare =
      { resp := { click_trans_id := some 9, merchant_trans_id := some "u1",
                  merchant_prepare_id := some 222,
                  error := ClickError.Success, error_note := "Success" },
        txns := [{ id := "", transId := "9", prepareId := 222, userId := "u1",
                   planId := "plan1", amount := 50000, status := .PENDING }],
        events := [] } :=
  prepare_creates_pending cfgX 222
    { txns := [], users := [userA], plans := [planA] } dtoPrepare
    (by decide) rfl ⟨userA, by decide⟩ ⟨planA, by decide, by decide⟩ (by decide)

/-- A subs-api callback dto with the empty signature, used as the base
for a correctly signed one (`createSignature` does not read
`sign_string`). -/
def subsDtoBase : SubsDto :=
  { click_trans_id := 9, service_id := 2, merchant_trans_id := "m1",
    amount := 50000, action := 0, error := 0, error_note := "",
    sign_time := "tt", sign_string := "", merchant_prepare_id := "" }

/-- `subsDtoBase` with its correct signature filled in. -/
def subsDtoSigned : SubsDto :=
  { subsDtoBase with sign_string := createSignature "secret" subsDtoBase }

/-- C7 counterexample: a valid, signature-verified subs-api prepare for
the pre-created transaction `m1` succeeds (error 0) but creates no new
record — the store still holds exactly one transaction, now
`PROCESSING` rather than `PENDING` — and echoes the pre-existing `_id`
"m1" instead of a fresh timestamp-derived prepare id. -/
theorem subsPrepare_creates_nothing :
    (prepareTransaction cfgX
      { txns := [txnPending], users := [userA], plans := [planA] }
      subsDtoSigned).resp.error = 0 ∧
    (prepareTransaction cfgX
      { txns := [txnPending], users := [userA], plans := [planA] }
      subsDtoSigned).resp.merchant_prepare_id = some "m1" ∧
    (prepareTransaction cfgX
      { txns := [txnPending], users := [userA], plans := [planA] }
      subsDtoSigned).txns = [{ txnPending with status := .PROCESSING }] := by
  decide

/-! ## C1: completing an already-completed transaction -/

/-- C1, amended: a complete callback for a transaction already in the
terminal success state performs no state change and triggers no
subscription-activation side effect in either variant; the subs-api
variant answers idempotently with `SUCCESS` (0) and the same confirm id
(the transaction's `_id`), while the click.service variant rejects an
already-`PAID` prepare id with `ALREADY_PAID` (-4) instead of
`SUCCESS`. -/
theorem completeAlreadyCompleted (cfg : ClickCfg) :
    (∀ (db : Db) (dto : SubsDto) (t : Txn),
      dto.error = 0 →
      createSignature cfg.secretKey dto = dto.sign_string →
      findOne (fun t : Txn => t.id = dto.merchant_trans_id) db.txns = some t →
      t.status = .COMPLETED →
      completeTransaction cfg db dto =
        { resp := { click_trans_id := dto.click_trans_id,
                    merchant_trans_id := dto.merchant_trans_id,
                    merchant_confirm_id := some t.id, error := 0,
                    error_note := "Already completed" },
          txns := db.txns, events := [] }) ∧
    (∀ (db : Db) (dto : ClickRequest) (act : Bool) (u : User) (plan : Plan)
       (tp tq : Txn),
      dto.sign_string = generateMD5
        { clickTransId := toString dto.click_trans_id, serviceId := dto.service_id,
          secretKey := cfg.secretKey, merchantTransId := dto.merchant_trans_id,
          merchantPrepareId := some dto.merchant_prepare_id, amount := dto.amount,
          action := dto.action, signTime := dto.sign_time } →
      findOne (fun u : User => u.id = dto.merchant_trans_id) db.users = some u →
      findOne (fun p : Plan => p.id = dto.param1) db.plans = some plan →
      findOne (fun t : Txn => t.prepareId = dto.merchant_prepare_id ∧
        t.userId = dto.merchant_trans_id ∧ t.planId = dto.param1) db.txns = some tp →
      findOne (fun t : Txn => t.planId = dto.param1 ∧
        t.prepareId = dto.merchant_prepare_id ∧
        t.status = TransactionStatus.PAID) db.txns = some tq →
      clickComplete cfg db dto act =
        { resp := { error := ClickError.AlreadyPaid, error_note := "Already paid" },
          txns := db.txns, events := [] }) := by
  constructor
  · intro db dto t herr hsig ht hc
    simp only [completeTransaction]
    rw [if_neg (not_not_intro herr), if_neg (not_not_intro hsig), ht]
    dsimp only
    rw [if_pos hc]
  · intro db dto act u plan tp tq hsig hu hpl hprep hpaid
    simp only [clickComplete]
    rw [if_neg (not_not_intro hsig), hu, hpl]
    dsimp only
    rw [hprep]
    simp only [Option.isNone_some]
    rw [if_neg (by decide : ¬(false = true)), hpaid]
    simp only [Option.isSome_some, if_true]

/-- A `COMPLETED` subs-api transaction for `_id` "m1". -/
def txnCompleted : Txn := { txnPending with status := .COMPLETED }

/-- A correctly signed click-variant complete callback matching
`txnPending`'s prepare id 111, user and plan. -/
def dtoComplete : ClickRequest :=
  { click_trans_id := 9, service_id := 2, merchant_trans_id := "u1",
    param1 := "plan1", param2 := "", amount := 50000, action := .int 1,
    error := 0, sign_time := "tt",
    sign_string := generateMD5
      { clickTransId := "9", serviceId := 2, secretKey := "secret",
        merchantTransId := "u1", merchantPrepareId := some 111,
        amount := 50000, action := .int 1, signTime := "tt" },
    merchant_prepare_id := 111 }

/-- Witness for C1: the subs-api redelivered complete for the
`COMPLETED` transaction "m1" answers `SUCCESS`/"Already completed" with
confirm id "m1", leaving the store untouched and running no activation;
the click.service redelivered complete for the `PAID` transaction
answers `ALREADY_PAID`, also untouched and without activation. -/
theorem completeAlreadyCompleted_witness :
    completeTransaction cfgX
      { txns := [txnCompleted], users := [userA], plans := [planA] }
      subsDtoSigned =
      { resp := { click_trans_id := 9, merchant_trans_id := "m1",
                  merchant_confirm_id := some "m1", error := 0,
                  error_note := "Already completed" },
        txns := [txnCompleted], events := [] } ∧
    clickComplete cfgX
      { txns := [{ txnPending with status := .PAID }], users := [userA],
        plans := [planA] } dtoComplete false =
      { resp := { error := ClickError.AlreadyPaid, error_note := "Already paid" },
        txns := [{ txnPending with status := .PAID }], events := [] } :=
  ⟨(completeAlreadyCompleted cfgX).1
      { txns := [txnCompleted], users := [userA], plans := [planA] }
      subsDtoSigned txnCompleted rfl rfl (by decide) rfl,
   (completeAlreadyCompleted cfgX).2
      { txns := [{ txnPending with status := .PAID }], users := [userA],
        plans := [planA] } dtoComplete false userA planA
      { txnPending with status := .PAID } { txnPending with status := .PAID }
      rfl (by decide) (by decide) (by decide) (by decide)⟩

/-- C1 counterexample: the click.service complete for an already-`PAID`
transaction does not answer `SUCCESS` — it answers `ALREADY_PAID`
(-4), so the claim's "returns SUCCESS (error 0)" fails on the cited
`click.service.ts` path. -/
theorem completeAlreadyPaid_not_success :
    (clickComplete cfgX
      { txns := [{ txnPending with status := .PAID }], users := [userA],
        plans := [planA] } dtoComplete false).resp.error ≠
      ClickError.Success := by
  decide

/-! ## C3: complete callbacks with a non-zero embedded error -/

/-- C3, amended: the two variants diverge from the claim.  The subs-api
`completeTransaction` echoes a non-zero `error` verbatim but performs no
state change at all — it returns before consulting the store, so the
transaction is never marked `FAILED` (the inner `error < 0` branch is
unreachable).  The click.service `complete` marks the transaction
`FAILED` and echoes the code only when the error is positive
(`error > 0`); a negative non-zero error slips past that check and the
transaction is completed as `PAID`. -/
theorem completeNonzeroError (cfg : ClickCfg) :
    (∀ (db : Db) (dto : SubsDto), dto.error ≠ 0 →
      completeTransaction cfg db dto =
        { resp := { click_trans_id := dto.click_trans_id,
                    merchant_trans_id := dto.merchant_trans_id,
                    merchant_confirm_id := none, error := dto.error,
                    error_note := dto.error_note },
          txns := db.txns, events := [] }) ∧
    (∀ (db : Db) (dto : ClickRequest) (act : Bool) (u : User) (plan : Plan)
       (tp : Txn),
      dto.sign_string = generateMD5
        { clickTransId := toString dto.click_trans_id, serviceId := dto.service_id,
          secretKey := cfg.secretKey, merchantTransId := dto.merchant_trans_id,
          merchantPrepareId := some dto.merchant_prepare_id, amount := dto.amount,
          action := dto.action, signTime := dto.sign_time } →
      findOne (fun u : User => u.id = dto.merchant_trans_id) db.users = some u →
      findOne (fun p : Plan => p.id = dto.param1) db.plans = some plan →
      findOne (fun t : Txn => t.prepareId = dto.merchant_prepare_id ∧
        t.userId = dto.merchant_trans_id ∧ t.planId = dto.param1) db.txns = some tp →
      findOne (fun t : Txn => t.planId = dto.param1 ∧
        t.prepareId = dto.merchant_prepare_id ∧
        t.status = TransactionStatus.PAID) db.txns = none →
      dto.amount = plan.price →
      (findOne (fun t : Txn => t.transId = toString dto.click_trans_id)
        db.txns).any (fun t => decide (t.status = TransactionStatus.CANCELED)) = false →
      ((0 < dto.error →
        clickComplete cfg db dto act =
          { resp := { error := dto.error, error_note := "Failed" },
            txns := updateFirst (fun t : Txn => t.transId = toString dto.click_trans_id)
              (fun t => { t with status := .FAILED }) db.txns,
            events := [] }) ∧
       (dto.error < 0 →
        (clickComplete cfg db dto act).resp.error = ClickError.Success ∧
        (clickComplete cfg db dto act).txns =
          updateFirst (fun t : Txn => t.transId = toString dto.click_trans_id)
            (fun t => { t with status := .PAID }) db.txns))) := by
  constructor
  · intro db dto herr
    simp only [completeTransaction]
    rw [if_pos herr]
  · intro db dto act u plan tp hsig hu hpl hprep hpaid hamt hcanc
    have base : ∀ G : HandlerResult ClickResp → Prop,
        (G (if 0 < dto.error then
          { resp := { error := dto.error, error_note := "Failed" },
            txns := updateFirst (fun t : Txn => t.transId = toString dto.click_trans_id)
              (fun t => { t with status := .FAILED }) db.txns,
            events := [] }
        else
          { resp := { click_trans_id := some dto.click_trans_id,
                      merchant_trans_id := some dto.merchant_trans_id,
                      error := ClickError.Success, error_note := "Success" },
            txns := updateFirst (fun t : Txn => t.transId = toString dto.click_trans_id)
              (fun t => { t with status := .PAID }) db.txns,
            events :=
              match (findOne (fun t : Txn => t.transId = toString dto.click_trans_id)
                  db.txns).map (fun t => { t with status := TransactionStatus.PAID }) with
              | some ut =>
                if (findOne (fun u : User => u.id = ut.userId) db.users).isSome then
                  if act then [] else [Event.paymentSuccessNotified ut.userId]
                else []
              | none => [] })) →
        G (clickComplete cfg db dto act) := by
      intro G hG
      simp only [clickComplete]
      rw [if_neg (not_not_intro hsig), hu, hpl]
      dsimp only
      rw [hprep]
      simp only [Option.isNone_some]
      rw [if_neg (by decide : ¬(false = true)), hpaid]
      simp only [Option.isSome_none]
      rw [if_neg (by decide : ¬(false = true)), if_neg (not_not_intro hamt), hcanc,
        if_neg (by decide : ¬(false = true))]
      exact hG
    constructor
    · intro hpos
      refine base (fun r => r = _) ?_
      rw [if_pos hpos]
    · intro hneg
      refine base (fun r => r.resp.error = ClickError.Success ∧ r.txns = _) ?_
      rw [if_neg (by omega : ¬(0 < dto.error))]
      exact ⟨rfl, rfl⟩

/-- The pre-created subs-api transaction after a successful prepare:
`PROCESSING`. -/
def txnProcessing : Txn := { txnPending with status := .PROCESSING }

/-- Witness for C3: the subs-api complete with `error = -5` echoes -5
and leaves the store untouched; the click.service complete with
`error = 7` marks the transaction `FAILED` and echoes 7; with
`error = -5` it instead completes the transaction as `PAID` with
`SUCCESS`. -/
theorem completeNonzeroError_witness :
    completeTransaction cfgX
      { txns := [txnProcessing], users := [userA], plans := [planA] }
      { subsDtoBase with error := -5 } =
      { resp := { click_trans_id := 9, merchant_trans_id := "m1",
                  merchant_confirm_id := none, error := -5, error_note := "" },
        txns := [txnProcessing], events := [] } ∧
    clickComplete cfgX
      { txns := [txnPending], users := [userA], plans := [planA] }
      { dtoComplete with error := 7 } false =
      { resp := { error := 7, error_note := "Failed" },
        txns := [{ txnPending with status := .FAILED }], events := [] } ∧
    (clickComplete cfgX
      { txns := [txnPending], users := [userA], plans := [planA] }
      { dtoComplete with error := -5 } false).resp.error = ClickError.Success := by
  refine ⟨?_, ?_, ?_⟩
  · exact (completeNonzeroError cfgX).1
      { txns := [txnProcessing], users := [userA], plans := [planA] }
      { subsDtoBase with error := -5 } (by decide)
  · have h := ((completeNonzeroError cfgX).2
      { txns := [txnPending], users := [userA], plans := [planA] }
      { dtoComplete with error := 7 } false userA planA txnPending
      rfl (by decide) (by decide) (by decide) (by decide) (by decide)
      (by decide)).1 (by decide)
    rw [h]
    decide
  · exact (((completeNonzeroError cfgX).2
      { txns := [txnPending], users := [userA], plans := [planA] }
      { dtoComplete with error := -5 } false userA planA txnPending
      rfl (by decide) (by decide) (by decide) (by decide) (by decide)
      (by decide)).2 (by decide)).1

/-- C3 counterexample: a valid subs-api complete with embedded error -5
for the `PROCESSING` transaction "m1" echoes -5 but does not mark the
transaction `FAILED` — the store is returned unchanged, still
`PROCESSING`. -/
theorem completeError_no_failed_mark :
    (completeTransaction cfgX
      { txns := [txnProcessing], users := [userA], plans := [planA] }
      { subsDtoBase with error := -5 }).resp.error = -5 ∧
    (completeTransaction cfgX
      { txns := [txnProcessing], users := [userA], plans := [planA] }
      { subsDtoBase with error := -5 }).txns = [txnProcessing] := by
  decide

/-! ## C5: terminal statuses and the conditional completion update -/

theorem findOne_split {α : Type} (p : α → Prop) [DecidablePred p] (f : α → α) :
    ∀ (l : List α) (t : α), findOne p l = some t →
    ∃ l1 l2, l = l1 ++ t :: l2 ∧ (∀ y ∈ l1, ¬ p y) ∧ p t ∧
      updateFirst p f l = l1 ++ f t :: l2 := by
  intro l
  induction l with
  | nil => intro t h; exact absurd h (by simp [findOne])
  | cons a l ih =>
    intro t h
    have hsplit : p a ∧ a = t ∨ ¬ p a ∧
        List.find? (fun x => decide (p x)) l = some t := by
      simpa [findOne] using h
    rcases hsplit with ⟨hpa, rfl⟩ | ⟨hpa, h'⟩
    · exact ⟨[], l, rfl, by simp, hpa, by simp [updateFirst, if_pos hpa]⟩
    · obtain ⟨l1, l2, hl, hl1, hpt, hup⟩ := ih t h'
      exact ⟨a :: l1, l2, by rw [hl]; rfl,
        by intro y hy; rcases List.mem_cons.mp hy with rfl | hy; exact hpa; exact hl1 y hy,
        hpt, by simp [updateFirst, if_neg hpa, hup]⟩

/-- C5, amended: in the subs-api variant the completion update is
conditional on the transaction being `PROCESSING`: either the store is
returned untouched, or the transaction found for the callback is in
`PROCESSING` and exactly that record is rewritten to `COMPLETED`; hence
every record in a non-`PROCESSING` status — in particular the terminal
`COMPLETED`/`PAID`, `FAILED` and `CANCELED` — survives the call verbatim.
(The click.service variant's final update is keyed by `transId` alone and
only guarded against `PAID` and `CANCELED`, so it can move a `FAILED`
transaction to `PAID` — see the counterexample.) -/
theorem subsComplete_conditional_update (cfg : ClickCfg) (db : Db) (dto : SubsDto) :
    ((completeTransaction cfg db dto).txns = db.txns ∨
      ∃ t, findOne (fun x : Txn => x.id = dto.merchant_trans_id) db.txns = some t ∧
        t.status = .PROCESSING ∧
        (completeTransaction cfg db dto).txns =
          updateFirst (fun x : Txn => x.id = dto.merchant_trans_id)
            (fun x => { x with status := .COMPLETED }) db.txns) ∧
    (∀ x ∈ db.txns, x.status ≠ .PROCESSING →
      x ∈ (completeTransaction cfg db dto).txns) := by
  have key : (completeTransaction cfg db dto).txns = db.txns ∨
      ∃ t, findOne (fun x : Txn => x.id = dto.merchant_trans_id) db.txns = some t ∧
        t.status = .PROCESSING ∧
        (completeTransaction cfg db dto).txns =
          updateFirst (fun x : Txn => x.id = dto.merchant_trans_id)
            (fun x => { x with status := .COMPLETED }) db.txns := by
    simp only [completeTransaction]
    by_cases herr : dto.error ≠ 0
    · rw [if_pos herr]; left; rfl
    · rw [if_neg herr]
      by_cases hsig : createSignature cfg.secretKey dto ≠ dto.sign_string
      · rw [if_pos hsig]; left; rfl
      · rw [if_neg hsig]
        cases ht : findOne (fun x : Txn => x.id = dto.merchant_trans_id) db.txns with
        | none => left; rfl
        | some t =>
          dsimp only
          by_cases hc : t.status = .COMPLETED
          · rw [if_pos hc]; left; rfl
          · rw [if_neg hc]
            by_cases hp : t.status ≠ .PROCESSING
            · rw [if_pos hp]; left; rfl
            · rw [if_neg hp]
              have herr0 : dto.error = 0 := not_not.mp herr
              rw [if_neg (by omega : ¬ dto.error < 0)]
              exact Or.inr ⟨t, rfl, not_not.mp hp, rfl⟩
  refine ⟨key, ?_⟩
  intro x hx hxs
  rcases key with h | ⟨t, ht, htp, h⟩
  · rw [h]; exact hx
  · rw [h]
    obtain ⟨l1, l2, hl, _, _, hup⟩ :=
      findOne_split (fun x : Txn => x.id = dto.merchant_trans_id)
        (fun x => { x with status := .COMPLETED }) db.txns t ht
    rw [hup]
    rw [hl] at hx
    rcases List.mem_append.mp hx with h1 | h2
    · exact List.mem_append_left _ h1
    · rcases List.mem_cons.mp h2 with rfl | h2
      · exact absurd htp hxs
      · exact List.mem_append_right _ (List.mem_cons_of_mem _ h2)

/-- Witness for C5: with the store holding only the `FAILED` transaction
"m1", a subs-api complete leaves the `FAILED` record in place. -/
theorem subsComplete_conditional_update_witness :
    { txnPending with status := .FAILED } ∈
      (completeTransaction cfgX
        { txns := [{ txnPending with status := .FAILED }], users := [userA],
          plans := [planA] } subsDtoSigned).txns :=
  (subsComplete_conditional_update cfgX
    { txns := [{ txnPending with status := .FAILED }], users := [userA],
      plans := [planA] } subsDtoSigned).2
    { txnPending with status := .FAILED } (by decide) (by decide)

/-- C5 counterexample: the click.service complete moves the terminal
`FAILED` transaction for gateway id 9 back to `PAID` — the final
`findOneAndUpdate` is keyed by `transId` only and nothing guards against
`FAILED`, resurrecting a terminal status. -/
theorem clickComplete_resurrects_failed :
    (clickComplete cfgX
      { txns := [{ txnPending with status := .FAILED }], users := [userA],
        plans := [planA] } dtoComplete false).txns =
      [{ txnPending with status := .PAID }] := by
  decide

/-! ## C4: activation failures after the completion update -/

set_option maxHeartbeats 2000000 in
/-- C4, amended: in click.service.ts the activation call is wrapped in a
`try` whose `catch` only logs, so whether or not the
subscription-activation side effect throws, the response body and the
transaction store (including the fresh `PAID` status) are identical — an
activation failure neither rolls back the update nor fails the callback.
In the part_003 variant the `catch` re-throws after logging, so the
activation failure does propagate out of the handler (no response is
returned to the gateway), although the `PAID` update is likewise not
rolled back. -/
theorem activationFailure_handling (cfg : ClickCfg) (db : Db) (dto : ClickRequest) :
    ((clickComplete cfg db dto true).resp = (clickComplete cfg db dto false).resp ∧
     (clickComplete cfg db dto true).txns = (clickComplete cfg db dto false).txns) ∧
    (p3Complete cfg db dto true).txns = (p3Complete cfg db dto false).txns := by
  refine ⟨⟨?_, ?_⟩, ?_⟩
  · simp only [clickComplete]
    repeat' split
    all_goals rfl
  · simp only [clickComplete]
    repeat' split
    all_goals rfl
  · simp only [p3Complete]
    repeat' split
    all_goals rfl

/-- A correctly signed complete callback in the part_003 field mapping
(`merchant_trans_id` = plan id, `param2` = user id). -/
def dtoComplete3 : ClickRequest :=
  { click_trans_id := 9, service_id := 2, merchant_trans_id := "plan1",
    param1 := "plan1", param2 := "u1", amount := 50000, action := .int 1,
    error := 0, sign_time := "tt",
    sign_string := generateMD5
      { clickTransId := "9", serviceId := 2, secretKey := "secret",
        merchantTransId := "plan1", merchantPrepareId := some 111,
        amount := 50000, action := .int 1, signTime := "tt" },
    merchant_prepare_id := 111 }

/-- Whether a handler modelled with `Except` ended by throwing. -/
def isThrown : Except Unit ClickResp → Bool
  | .error _ => true
  | .ok _ => false

/-- C4 counterexample: in the part_003 variant, a complete whose
activation side effect throws ends with the handler throwing
(`resp = .error ()`), turning the callback into a failure — even though
the transaction was already updated to `PAID` and stays so. -/
theorem p3_activation_failure_fails_response :
    isThrown (p3Complete cfgX
      { txns := [txnPending], users := [userA], plans := [planA] }
      dtoComplete3 true).resp = true ∧
    (p3Complete cfgX
      { txns := [txnPending], users := [userA], plans := [planA] }
      dtoComplete3 true).txns = [{ txnPending with status := .PAID }] := by
  decide

end ClickBot
